import Mathlib

/-!
Shallow embedding of the woolwitch order/payment core, translated from the
SQL migration `supabase/migrations/20260112190029_woolwitch_fix_security_issues.sql`
(the authoritative, latest definitions of `woolwitch_api.create_order`,
`woolwitch_api.create_payment`, `woolwitch_api.update_payment_status` and
`woolwitch.check_order_rate_limit`), together with the table definitions and
CHECK constraints of `woolwitch.orders`, `woolwitch.order_items` and
`woolwitch.payments`, and `woolwitch.is_admin` from the initial setup.

Numeric columns (`numeric(10,2)` / `numeric`) are modelled as exact rationals
(`ℚ`); Postgres `numeric` arithmetic is exact decimal arithmetic, so the 0.01
comparisons in the source are exact rational comparisons here.  UUIDs are
modelled as natural numbers.  Each plpgsql function runs in a single
transaction: an exception rolls back everything the call did, which is
modelled by `Except` — an `.error` result carries no new state.
-/

namespace Woolwitch

abbrev UserId := Nat
abbrev ProductId := Nat
abbrev OrderId := Nat
abbrev PaymentId := Nat

/-- `woolwitch.products` row as read by the core: `price numeric(10,2) NOT NULL`,
`delivery_charge numeric(10,2)` (nullable, hence `Option`, the source COALESCEs
it to 0), `is_available boolean`, plus the display `name`. -/
structure Product where
  name : String
  price : ℚ
  deliveryCharge : Option ℚ
  isAvailable : Bool
deriving Repr, DecidableEq

/-- `payment_method text CHECK (payment_method IN ('card', 'paypal'))`. -/
inductive PaymentMethod where
  | card
  | paypal
deriving Repr, DecidableEq

/-- `orders.status CHECK (status IN ('pending','paid','shipped','delivered','cancelled'))`. -/
inductive OrderStatus where
  | pending
  | paid
  | shipped
  | delivered
  | cancelled
deriving Repr, DecidableEq

/-- `payments.status CHECK (status IN ('pending','completed','failed','refunded'))`. -/
inductive PaymentStatus where
  | pending
  | completed
  | failed
  | refunded
deriving Repr, DecidableEq

/-- The `address jsonb` payload: `{address, city, postcode}`. -/
structure Address where
  street : String
  city : String
  postcode : String
deriving Repr, DecidableEq

/-- One element of the `p_order_items jsonb` array.  `create_order` reads
`->>'product_id'`, `->>'product_name'` and `(->>'quantity')::integer`; the
client-submitted `product_price` and `delivery_charge` fields are carried in
the JSON but never read by the fixed `create_order`. -/
structure CartLine where
  productId : ProductId
  productName : String
  productPrice : ℚ
  deliveryCharge : ℚ
  quantity : Int
deriving Repr, DecidableEq

/-- A `woolwitch.orders` row (timestamps other than `created_at` omitted;
`created_at` is kept because `check_order_rate_limit` counts rows by it). -/
structure Order where
  id : OrderId
  userId : Option UserId
  email : String
  fullName : String
  address : Address
  subtotal : ℚ
  deliveryTotal : ℚ
  total : ℚ
  status : OrderStatus
  paymentMethod : PaymentMethod
  createdAt : Int
deriving Repr, DecidableEq

/-- A `woolwitch.order_items` row (`id`/`created_at` omitted; rows are
identified here by their owning `order_id`). -/
structure OrderItem where
  orderId : OrderId
  productId : Option ProductId
  productName : String
  productPrice : ℚ
  quantity : Int
  deliveryCharge : ℚ
deriving Repr, DecidableEq

/-- Opaque jsonb payload, enough to model `COALESCE(x,'{}'::jsonb) || y`. -/
abbrev Jsonb := List (String × String)

/-- A `woolwitch.payments` row (timestamps omitted). -/
structure Payment where
  id : PaymentId
  orderId : OrderId
  paymentMethod : PaymentMethod
  paymentId : String
  status : PaymentStatus
  amount : ℚ
  currency : String
  paypalDetails : Option Jsonb
  stripeDetails : Option Jsonb
deriving Repr, DecidableEq

/-- The database state visible to the core: the four tables, the set of
user ids holding the `admin` role in `woolwitch.user_roles`, fresh-id
counters standing in for `gen_random_uuid()`, and the wall clock `now()`. -/
structure DBState where
  products : List (ProductId × Product)
  orders : List Order
  orderItems : List OrderItem
  payments : List Payment
  adminUsers : List UserId
  nextOrderId : OrderId
  nextPaymentId : PaymentId
  now : Int
deriving Repr, DecidableEq

/-- `SELECT ... FROM woolwitch.products WHERE id = ...`. -/
def lookupProduct (st : DBState) (pid : ProductId) : Option Product :=
  (st.products.find? (fun p => p.1 == pid)).map Prod.snd

/-- `woolwitch.is_admin()`: the caller is authenticated and has an `admin`
row in `woolwitch.user_roles` (`user_id = auth.uid() AND role = 'admin'`;
a NULL `auth.uid()` matches no row). -/
def is_admin (st : DBState) (uid : Option UserId) : Bool :=
  match uid with
  | none => false
  | some u => st.adminUsers.contains u

/-- The distinct `RAISE EXCEPTION` sites of the core, plus `checkViolation`
for a table CHECK / NOT NULL constraint rejecting an INSERT. -/
inductive ApiError where
  | productNotFound (productId : ProductId)
  | productUnavailable (productName : String)
  | totalMismatch (field : String) (claimed calculated : ℚ)
  | rateLimitExceeded
  | orderNotFound
  | accessDenied
  | amountMismatch (amount orderTotal : ℚ)
  | onlyAdminCanSetStatus (status : PaymentStatus)
  | onlyAdminCanUpdateStatus
  | checkViolation (constraintName : String)
deriving Repr, DecidableEq

/-- `woolwitch.check_order_rate_limit()`: authenticated callers always pass;
for anonymous callers, count `woolwitch.orders` rows with
`created_at > now() - interval '1 hour'` and `user_id IS NULL`, and raise
once the count reaches 50. -/
def check_order_rate_limit (st : DBState) (uid : Option UserId) :
    Except ApiError Bool :=
  match uid with
  | some _ => .ok true
  | none =>
    let recentCount :=
      (st.orders.filter (fun o =>
        decide (st.now - 3600 < o.createdAt) && o.userId.isNone)).length
    if 50 ≤ recentCount then .error .rateLimitExceeded
    else .ok true

/-- The first `FOR v_item IN ... LOOP` of `create_order`: per line, read
`price, delivery_charge, is_available` from `woolwitch.products`
(`v_product_price IS NULL` ⟺ no row, since `price` is NOT NULL), raise
`Product % not found` / `Product % is not available` (the latter names the
client-submitted `v_item->>'product_name'`), and accumulate
`v_calculated_subtotal += price * quantity`,
`v_calculated_delivery += COALESCE(delivery_charge, 0) * quantity`. -/
def validateItems (st : DBState) :
    List CartLine → ℚ → ℚ → Except ApiError (ℚ × ℚ)
  | [], sub, del => .ok (sub, del)
  | l :: rest, sub, del =>
    match lookupProduct st l.productId with
    | none => .error (.productNotFound l.productId)
    | some p =>
      if p.isAvailable = false then .error (.productUnavailable l.productName)
      else
        validateItems st rest (sub + p.price * (l.quantity : ℚ))
          (del + (p.deliveryCharge.getD 0) * (l.quantity : ℚ))

/-- The second `FOR v_item IN ... LOOP` of `create_order`: re-read
`price, delivery_charge` from `woolwitch.products` and insert one
`order_items` row per cart line with the database price, the cart line's
`product_name` and `quantity`, and `COALESCE(delivery_charge, 0)`.  The
table constraints `product_price NOT NULL`, `product_price >= 0`,
`quantity > 0`, `delivery_charge >= 0` reject the INSERT (aborting the whole
transaction) when violated. -/
def insertItems (st : DBState) (oid : OrderId) :
    List CartLine → List OrderItem → Except ApiError (List OrderItem)
  | [], acc => .ok acc
  | l :: rest, acc =>
    match lookupProduct st l.productId with
    | none => .error (.checkViolation "order_items.product_price NOT NULL")
    | some p =>
      let row : OrderItem :=
        { orderId := oid
          productId := some l.productId
          productName := l.productName
          productPrice := p.price
          quantity := l.quantity
          deliveryCharge := p.deliveryCharge.getD 0 }
      if row.productPrice < 0 then
        .error (.checkViolation "order_items.product_price >= 0")
      else if row.quantity ≤ 0 then
        .error (.checkViolation "order_items.quantity > 0")
      else if row.deliveryCharge < 0 then
        .error (.checkViolation "order_items.delivery_charge >= 0")
      else insertItems st oid rest (acc ++ [row])

/-- `woolwitch_api.create_order(p_email, p_full_name, p_address, p_subtotal,
p_delivery_total, p_total, p_payment_method, p_order_items)`.

Steps, in source order: `v_user_id := auth.uid()`; the validation loop
(`validateItems`); the three `ABS(...) > 0.01` comparisons against the
claimed totals; `INSERT INTO woolwitch.orders` with the *calculated*
subtotal/delivery/total, status `'pending'` and the caller's user id
(the table CHECKs `subtotal >= 0`, `delivery_total >= 0`, `total >= 0`
reject the INSERT when violated); the item-insert loop (`insertItems`);
return the new order id.  Note: the function never calls
`woolwitch.check_order_rate_limit`. -/
def create_order (st : DBState) (uid : Option UserId)
    (p_email p_full_name : String) (p_address : Address)
    (p_subtotal p_delivery_total p_total : ℚ)
    (p_payment_method : PaymentMethod) (p_order_items : List CartLine) :
    Except ApiError (DBState × OrderId) :=
  match validateItems st p_order_items 0 0 with
  | .error e => .error e
  | .ok (calcSub, calcDel) =>
    if 1/100 < |calcSub - p_subtotal| then
      .error (.totalMismatch "subtotal" p_subtotal calcSub)
    else if 1/100 < |calcDel - p_delivery_total| then
      .error (.totalMismatch "delivery total" p_delivery_total calcDel)
    else if 1/100 < |(calcSub + calcDel) - p_total| then
      .error (.totalMismatch "total" p_total (calcSub + calcDel))
    else if calcSub < 0 then .error (.checkViolation "orders.subtotal >= 0")
    else if calcDel < 0 then
      .error (.checkViolation "orders.delivery_total >= 0")
    else if calcSub + calcDel < 0 then
      .error (.checkViolation "orders.total >= 0")
    else
      let oid := st.nextOrderId
      let order : Order :=
        { id := oid
          userId := uid
          email := p_email
          fullName := p_full_name
          address := p_address
          subtotal := calcSub
          deliveryTotal := calcDel
          total := calcSub + calcDel
          status := .pending
          paymentMethod := p_payment_method
          createdAt := st.now }
      match insertItems st oid p_order_items [] with
      | .error e => .error e
      | .ok rows =>
        .ok ({ st with
                orders := st.orders ++ [order]
                orderItems := st.orderItems ++ rows
                nextOrderId := oid + 1 }, oid)

/-- Transactional view of `create_order`: on an exception the transaction
rolls back, so the caller's database state is unchanged. -/
def create_order_run (st : DBState) (uid : Option UserId)
    (p_email p_full_name : String) (p_address : Address)
    (p_subtotal p_delivery_total p_total : ℚ)
    (p_payment_method : PaymentMethod) (p_order_items : List CartLine) :
    DBState × Except ApiError OrderId :=
  match create_order st uid p_email p_full_name p_address p_subtotal
      p_delivery_total p_total p_payment_method p_order_items with
  | .ok (st', oid) => (st', .ok oid)
  | .error e => (st, .error e)

/-- The access test of `create_payment`:
`IF NOT (v_order_user_id = auth.uid() OR v_order_user_id IS NULL OR
woolwitch.is_admin()) THEN RAISE 'Access denied to order'`.
Under SQL three-valued logic the RAISE fires only when the whole
disjunction is FALSE (a NULL result does not fire the IF), i.e. exactly
when the order belongs to some user, the caller is authenticated as a
different user, and the caller is not an admin. -/
def paymentAccessDenied (st : DBState) (uid : Option UserId)
    (orderUser : Option UserId) : Bool :=
  match orderUser, uid with
  | some ou, some u => ou != u && !(is_admin st (some u))
  | _, _ => false

/-- `woolwitch_api.create_payment(p_order_id, p_payment_method, p_payment_id,
p_amount, p_status, p_paypal_details, p_stripe_details)`.

Steps, in source order: read `total, user_id` of the order (`Order not
found` when absent); the access check (`paymentAccessDenied`);
`ABS(p_amount - v_order_total) > 0.01` → `Payment amount ... does not
match`; `p_status != 'pending' AND NOT is_admin()` → `Only admin can set
payment status`; insert the payment with the *order's* total as `amount`
and currency `'GBP'` (the table CHECK `amount >= 0` rejects the INSERT when
violated). -/
def create_payment (st : DBState) (uid : Option UserId)
    (p_order_id : OrderId) (p_payment_method : PaymentMethod)
    (p_payment_id : String) (p_amount : ℚ) (p_status : PaymentStatus)
    (p_paypal_details p_stripe_details : Option Jsonb) :
    Except ApiError (DBState × PaymentId) :=
  match st.orders.find? (fun o => o.id == p_order_id) with
  | none => .error .orderNotFound
  | some o =>
    if paymentAccessDenied st uid o.userId then .error .accessDenied
    else if 1/100 < |p_amount - o.total| then
      .error (.amountMismatch p_amount o.total)
    else if p_status != .pending && !(is_admin st uid) then
      .error (.onlyAdminCanSetStatus p_status)
    else if o.total < 0 then .error (.checkViolation "payments.amount >= 0")
    else
      let pid := st.nextPaymentId
      let payment : Payment :=
        { id := pid
          orderId := p_order_id
          paymentMethod := p_payment_method
          paymentId := p_payment_id
          status := p_status
          amount := o.total
          currency := "GBP"
          paypalDetails := p_paypal_details
          stripeDetails := p_stripe_details }
      .ok ({ st with
              payments := st.payments ++ [payment]
              nextPaymentId := pid + 1 }, pid)

/-- `COALESCE(details, '{}'::jsonb) || p_payment_details` (right operand
wins on key conflict; keys of the right operand shadow the left here). -/
def mergeDetails (current : Option Jsonb) (incoming : Jsonb) : Jsonb :=
  current.getD [] ++ incoming

/-- The per-row effect of the `UPDATE woolwitch.payments ...` in
`update_payment_status`: set the new status, merge `p_payment_details` into
`paypal_details` when `payment_method = 'paypal'`.  The source's companion
branch guards on `payment_method = 'stripe'`, which the table CHECK
(`payment_method IN ('card','paypal')`) makes unsatisfiable, so
`stripe_details` is never merged. -/
def applyPaymentUpdate (p_payment_id : PaymentId) (p_status : PaymentStatus)
    (p_payment_details : Option Jsonb) (p : Payment) : Payment :=
  if p.id == p_payment_id then
    { p with
      status := p_status
      paypalDetails :=
        match p.paymentMethod, p_payment_details with
        | .paypal, some d => some (mergeDetails p.paypalDetails d)
        | _, _ => p.paypalDetails }
  else p

/-- `woolwitch_api.update_payment_status(p_payment_id, p_status,
p_payment_details)`.

Steps, in source order: `woolwitch.is_admin()` gate (`Only admin/service
can update payment status`); validate `p_status IN
('pending','completed','failed','refunded')` — vacuous here because
`PaymentStatus` has exactly those inhabitants; `UPDATE woolwitch.payments`
rows with `id = p_payment_id` (no error when no row matches); when
`p_status = 'completed'`, `UPDATE woolwitch.orders SET status = 'paid'`
for the order referenced by the payment's `order_id`.  No check of the
payment's *current* status is made anywhere. -/
def update_payment_status (st : DBState) (uid : Option UserId)
    (p_payment_id : PaymentId) (p_status : PaymentStatus)
    (p_payment_details : Option Jsonb) : Except ApiError DBState :=
  if is_admin st uid = false then .error .onlyAdminCanUpdateStatus
  else
    let payments' :=
      st.payments.map (applyPaymentUpdate p_payment_id p_status p_payment_details)
    if p_status == PaymentStatus.completed then
      let parentOrder :=
        (st.payments.find? (fun p => p.id == p_payment_id)).map Payment.orderId
      .ok { st with
              payments := payments'
              orders := st.orders.map (fun o =>
                if some o.id == parentOrder then { o with status := .paid }
                else o) }
    else .ok { st with payments := payments' }

/-- Freshness of the generated-id counters: every stored row's id is below
the corresponding counter (true of any state reachable from an empty
database through the operations; `gen_random_uuid()` never collides). -/
def DBState.WF (st : DBState) : Bool :=
  st.orders.all (fun o => o.id < st.nextOrderId) &&
  st.orderItems.all (fun i => i.orderId < st.nextOrderId) &&
  st.payments.all (fun p => p.id < st.nextPaymentId)

/-- Decidable equality of results, so concrete runs of the operations can
be settled by `decide`. -/
instance exceptDecEq {ε α : Type} [DecidableEq ε] [DecidableEq α] :
    DecidableEq (Except ε α)
  | .ok x, .ok y =>
    if h : x = y then .isTrue (congrArg Except.ok h)
    else .isFalse (fun hh => h (Except.ok.inj hh))
  | .error x, .error y =>
    if h : x = y then .isTrue (congrArg Except.error h)
    else .isFalse (fun hh => h (Except.error.inj hh))
  | .ok _, .error _ => .isFalse (fun hh => Except.noConfusion hh)
  | .error _, .ok _ => .isFalse (fun hh => Except.noConfusion hh)

/-- `sum(product_price * quantity)` over a set of line items. -/
def itemsSubtotal (rows : List OrderItem) : ℚ :=
  (rows.map (fun r => r.productPrice * (r.quantity : ℚ))).sum

/-- `sum(delivery_charge * quantity)` over a set of line items. -/
def itemsDelivery (rows : List OrderItem) : ℚ :=
  (rows.map (fun r => r.deliveryCharge * (r.quantity : ℚ))).sum

/-- The `order_items` row that the insert loop of `create_order` builds for
one cart line: `product_price` and `delivery_charge` are re-read from the
catalog, `product_name` and `quantity` are taken from the client-submitted
cart line.  `none` when the product is absent. -/
def snapshotRow (st : DBState) (oid : OrderId) (l : CartLine) :
    Option OrderItem :=
  (lookupProduct st l.productId).map fun p =>
    { orderId := oid
      productId := some l.productId
      productName := l.productName
      productPrice := p.price
      quantity := l.quantity
      deliveryCharge := p.deliveryCharge.getD 0 }

/-! Concrete example data, used to instantiate the theorems below on real
inputs.  Prices follow the spec's worked examples: a product at 20.00 with
delivery 3.99, and a product at 15.50 with delivery 2.50. -/

/-- Example catalog: product 1 priced 20.00 / delivery 3.99; product 2
("Alpaca Hat") priced 15.50 / delivery 2.50; product 3 ("Wool Hat")
unavailable.  Product id 99 is absent. -/
def exCatalog : List (ProductId × Product) :=
  [ (1, { name := "Tea Cosy", price := 20, deliveryCharge := some (399/100),
          isAvailable := true }),
    (2, { name := "Alpaca Hat", price := 31/2, deliveryCharge := some (5/2),
          isAvailable := true }),
    (3, { name := "Wool Hat", price := 5, deliveryCharge := none,
          isAvailable := false }) ]

/-- Example shipping address. -/
def exAddr : Address :=
  { street := "1 High St", city := "Leeds", postcode := "LS1 1AA" }

/-- Base example state: the catalog above, empty order/item/payment tables,
user 9 holding the admin role. -/
def exSt : DBState :=
  { products := exCatalog
    orders := []
    orderItems := []
    payments := []
    adminUsers := [9]
    nextOrderId := 100
    nextPaymentId := 500
    now := 10000 }

/-- A cart buying two of product 2, with a client-submitted display name and
client-submitted (untrusted, ignored) price fields that disagree with the
catalog. -/
def exCart : List CartLine :=
  [ { productId := 2, productName := "Fake Name", productPrice := 1,
      deliveryCharge := 0, quantity := 2 } ]

/-- The state and order id produced by the successful example
`create_order` call (claimed totals 31.00 / 5.00 / 36.00). -/
def exCreated : DBState × OrderId :=
  ((create_order exSt none "a@b.co" "Ann Smith" exAddr 31 5 36 .paypal
      exCart).toOption).getD (exSt, 0)

/-- An existing anonymous order (id 10) with total 36.00. -/
def ord10 : Order :=
  { id := 10, userId := none, email := "a@b.co", fullName := "Ann Smith",
    address := exAddr, subtotal := 31, deliveryTotal := 5, total := 36,
    status := .pending, paymentMethod := .card, createdAt := 9000 }

/-- A state holding the one existing anonymous order `ord10`. -/
def paySt : DBState :=
  { exSt with orders := [ord10] }

/-- The state and payment id produced by the successful example
`create_payment` call (amount 36.00, status pending, anonymous caller). -/
def exPaid : DBState × PaymentId :=
  ((create_payment paySt none 10 .card "tok_123" 36 .pending none
      none).toOption).getD (paySt, 0)

/-- A pending payment (id 20) on order 10. -/
def pay20 : Payment :=
  { id := 20, orderId := 10, paymentMethod := .card, paymentId := "tok_123",
    status := .pending, amount := 36, currency := "GBP",
    paypalDetails := none, stripeDetails := none }

/-- `paySt` plus the pending payment `pay20`. -/
def c7St : DBState :=
  { paySt with payments := [pay20] }

/-- `paySt` plus payment 20 in the *refunded* (terminal) state. -/
def c8St : DBState :=
  { paySt with payments := [{ pay20 with status := .refunded }] }

/-- The state produced by the admin re-completing the refunded payment. -/
def c8Res : DBState :=
  (update_payment_status c8St (some 9) 20 .completed none).toOption.getD c8St

/-- An anonymous order created 500 seconds ago (inside the 1-hour window). -/
def rlOrder : Order :=
  { id := 0, userId := none, email := "x@y.z", fullName := "Guest",
    address := exAddr, subtotal := 0, deliveryTotal := 0, total := 0,
    status := .pending, paymentMethod := .card, createdAt := 9500 }

/-- A state in which 50 anonymous orders already sit inside the trailing
1-hour window — the rate limiter's configured ceiling is reached. -/
def rlSt : DBState :=
  { exSt with orders := List.replicate 50 rlOrder }

/-- A two-line cart whose first line references the unavailable product 3
and whose second line references the absent product 99. -/
def mixedCart : List CartLine :=
  [ { productId := 3, productName := "Wool Hat", productPrice := 5,
      deliveryCharge := 0, quantity := 1 },
    { productId := 99, productName := "Ghost", productPrice := 1,
      deliveryCharge := 0, quantity := 1 } ]

/-! ### Helper lemmas -/

/-- Rows whose `order_id` is below `n` never match a filter for `n`. -/
theorem filter_orderId_nil (items : List OrderItem) (n : OrderId)
    (h : items.all (fun i => i.orderId < n) = true) :
    items.filter (fun r => r.orderId == n) = [] := by
  induction items with
  | nil => rfl
  | cons a t ih =>
    simp only [List.all_cons, Bool.and_eq_true] at h
    have ha : (a.orderId == n) = false := by
      simp only [beq_eq_false_iff_ne]
      exact Nat.ne_of_lt (by simpa using h.1)
    simp [List.filter, ha, ih h.2]

/-- Filtering for an `order_id` that every row already has is the identity. -/
theorem filter_orderId_self (rows : List OrderItem) (oid : OrderId)
    (h : ∀ r ∈ rows, r.orderId = oid) :
    rows.filter (fun r => r.orderId == oid) = rows := by
  induction rows with
  | nil => rfl
  | cons a t ih =>
    have ha : (a.orderId == oid) = true := beq_iff_eq.mpr (h a (by simp))
    simp only [List.filter, ha]
    exact congrArg (a :: ·) (ih fun r hr => h r (by simp [hr]))

theorem itemsSubtotal_append (a b : List OrderItem) :
    itemsSubtotal (a ++ b) = itemsSubtotal a + itemsSubtotal b := by
  simp [itemsSubtotal]

theorem itemsDelivery_append (a b : List OrderItem) :
    itemsDelivery (a ++ b) = itemsDelivery a + itemsDelivery b := by
  simp [itemsDelivery]

/-- Shape of a successful item-insert loop: it appends to the accumulator
exactly one snapshot row per cart line. -/
theorem insertItems_ok (st : DBState) (oid : OrderId) :
    ∀ (items : List CartLine) (acc rows : List OrderItem),
      insertItems st oid items acc = .ok rows →
      ∃ tail, rows = acc ++ tail ∧
        List.Forall₂ (fun l r => snapshotRow st oid l = some r) items tail := by
  intro items
  induction items with
  | nil =>
    intro acc rows h
    simp only [insertItems, Except.ok.injEq] at h
    exact ⟨[], by simp [h.symm], List.Forall₂.nil⟩
  | cons l rest ih =>
    intro acc rows h
    rw [insertItems] at h
    cases hl : lookupProduct st l.productId with
    | none =>
      simp only [hl] at h
      exact absurd h (fun hh => Except.noConfusion hh)
    | some p =>
      simp only [hl] at h
      split_ifs at h with h1 h2 h3
      obtain ⟨tail, htail, hfa⟩ := ih _ _ h
      refine ⟨{ orderId := oid, productId := some l.productId,
                productName := l.productName, productPrice := p.price,
                quantity := l.quantity,
                deliveryCharge := p.deliveryCharge.getD 0 } :: tail,
              by simp [htail], List.Forall₂.cons (by simp [snapshotRow, hl]) hfa⟩

/-- Every row produced by the insert loop carries the new order's id. -/
theorem forall₂_snapshot_orderId (st : DBState) (oid : OrderId)
    (items : List CartLine) (tail : List OrderItem)
    (h : List.Forall₂ (fun l r => snapshotRow st oid l = some r) items tail) :
    ∀ r ∈ tail, r.orderId = oid := by
  induction h with
  | nil => intro r hr; cases hr
  | cons h1 _ ih =>
    intro r hr
    rcases List.mem_cons.mp hr with hr | hr
    · subst hr
      rcases Option.map_eq_some'.mp h1 with ⟨p, _, hp⟩
      simp [← hp]
    · exact ih r hr

/-- The validation loop and the insert loop read the same catalog, so the
totals accumulated by the former are exactly the sums over the rows built by
the latter. -/
theorem validate_insert_sums (st : DBState) (oid : OrderId) :
    ∀ (items : List CartLine) (s d s' d' : ℚ) (acc rows : List OrderItem),
      validateItems st items s d = .ok (s', d') →
      insertItems st oid items acc = .ok rows →
      itemsSubtotal rows = itemsSubtotal acc + (s' - s) ∧
      itemsDelivery rows = itemsDelivery acc + (d' - d) := by
  intro items
  induction items with
  | nil =>
    intro s d s' d' acc rows hv hi
    simp only [validateItems, Except.ok.injEq, Prod.mk.injEq] at hv
    simp only [insertItems, Except.ok.injEq] at hi
    rw [← hi, hv.1, hv.2]
    constructor <;> ring
  | cons l rest ih =>
    intro s d s' d' acc rows hv hi
    rw [validateItems] at hv
    rw [insertItems] at hi
    cases hl : lookupProduct st l.productId with
    | none =>
      simp only [hl] at hv
      exact absurd hv (fun hh => Except.noConfusion hh)
    | some p =>
      simp only [hl] at hv hi
      by_cases hav : p.isAvailable = false
      · rw [if_pos hav] at hv
        exact absurd hv (fun hh => Except.noConfusion hh)
      · rw [if_neg hav] at hv
        split_ifs at hi with h1 h2 h3
        obtain ⟨hs, hd⟩ := ih _ _ _ _ _ _ hv hi
        rw [hs, hd, itemsSubtotal_append, itemsDelivery_append]
        constructor
        · simp only [itemsSubtotal, List.map_cons, List.map_nil,
            List.sum_cons, List.sum_nil]
          ring
        · simp only [itemsDelivery, List.map_cons, List.map_nil,
            List.sum_cons, List.sum_nil]
          ring

/-- Anatomy of a successful `create_order` call: the validation loop and
the insert loop both succeeded, and the result state appends exactly one
order row (with the calculated totals) and the inserted item rows. -/
theorem create_order_ok_shape
    (st : DBState) (uid : Option UserId) (e f : String) (a : Address)
    (pSub pDel pTot : ℚ) (m : PaymentMethod) (items : List CartLine)
    (st' : DBState) (oid : OrderId)
    (h : create_order st uid e f a pSub pDel pTot m items = .ok (st', oid)) :
    oid = st.nextOrderId ∧
    ∃ calcSub calcDel rows,
      validateItems st items 0 0 = .ok (calcSub, calcDel) ∧
      insertItems st st.nextOrderId items [] = .ok rows ∧
      st' = { st with
              orders := st.orders ++
                [Order.mk oid uid e f a calcSub calcDel (calcSub + calcDel)
                  .pending m st.now]
              orderItems := st.orderItems ++ rows
              nextOrderId := oid + 1 } := by
  rw [create_order] at h
  cases hv : validateItems st items 0 0 with
  | error e0 =>
    rw [hv] at h
    exact absurd h (fun hh => Except.noConfusion hh)
  | ok pair =>
    obtain ⟨calcSub, calcDel⟩ := pair
    rw [hv] at h
    dsimp only at h
    split_ifs at h with h1 h2 h3 h4 h5 h6
    cases hi : insertItems st st.nextOrderId items [] with
    | error e0 =>
      rw [hi] at h
      exact absurd h (fun hh => Except.noConfusion hh)
    | ok rows =>
      rw [hi] at h
      simp only [Except.ok.injEq, Prod.mk.injEq] at h
      obtain ⟨hst, hoid⟩ := h
      subst hoid
      subst hst
      exact ⟨rfl, calcSub, calcDel, rows, rfl, rfl, rfl⟩

/-- In the result state of a successful `create_order`, the rows matching
the new order id are exactly the freshly inserted rows: pre-existing rows
have smaller order ids (`WF`), and every new row carries the new id. -/
theorem filter_new_items (st : DBState) (rows : List OrderItem)
    (hwf : st.WF = true)
    (horows : ∀ r ∈ rows, r.orderId = st.nextOrderId) :
    (st.orderItems ++ rows).filter (fun r => r.orderId == st.nextOrderId)
      = rows := by
  rw [List.filter_append]
  have hnil : st.orderItems.filter
      (fun r => r.orderId == st.nextOrderId) = [] := by
    apply filter_orderId_nil
    simp only [DBState.WF, Bool.and_eq_true] at hwf
    exact hwf.1.2
  rw [hnil, filter_orderId_self _ _ horows, List.nil_append]

/-! ### Claim theorems -/

/-- C1: if the cart validates against the catalog to calculated totals and
any of the three claimed figures is off by more than 0.01 from them, then
`create_order` raises one of the mismatch exceptions and the database state
is unchanged — no Order and no Order Line Item is persisted. -/
theorem create_order_rejects_total_mismatch
    (st : DBState) (uid : Option UserId) (e f : String) (a : Address)
    (pSub pDel pTot : ℚ) (m : PaymentMethod) (items : List CartLine)
    (calcSub calcDel : ℚ)
    (hcalc : validateItems st items 0 0 = .ok (calcSub, calcDel))
    (hmis : 1/100 < |calcSub - pSub| ∨ 1/100 < |calcDel - pDel| ∨
            1/100 < |(calcSub + calcDel) - pTot|) :
    ∃ fld claimed calcv,
      create_order_run st uid e f a pSub pDel pTot m items
        = (st, .error (.totalMismatch fld claimed calcv)) := by
  by_cases h1 : 1/100 < |calcSub - pSub|
  · exact ⟨"subtotal", pSub, calcSub, by
      unfold create_order_run create_order
      rw [hcalc]; dsimp only; rw [if_pos h1]⟩
  · by_cases h2 : 1/100 < |calcDel - pDel|
    · exact ⟨"delivery total", pDel, calcDel, by
        unfold create_order_run create_order
        rw [hcalc]; dsimp only; rw [if_neg h1, if_pos h2]⟩
    · have h3 : 1/100 < |(calcSub + calcDel) - pTot| := by tauto
      exact ⟨"total", pTot, calcSub + calcDel, by
        unfold create_order_run create_order
        rw [hcalc]; dsimp only; rw [if_neg h1, if_neg h2, if_pos h3]⟩

/-- C1 witness: the spec's own test — a product priced 20.00 with delivery
3.99, a cart claiming subtotal 1.00 — is rejected with a total-mismatch
error and nothing is persisted. -/
theorem create_order_rejects_total_mismatch_witness :
    ∃ fld claimed calcv,
      create_order_run exSt none "a@b.co" "Ann Smith" exAddr 1 (399/100)
          (499/100) .card
          [{ productId := 1, productName := "Tea Cosy", productPrice := 20,
             deliveryCharge := 0, quantity := 1 }]
        = (exSt, .error (.totalMismatch fld claimed calcv)) :=
  create_order_rejects_total_mismatch exSt none "a@b.co" "Ann Smith" exAddr
    1 (399/100) (499/100) .card _ 20 (399/100)
    (by norm_num [validateItems, lookupProduct, exSt, exCatalog])
    (Or.inl (by norm_num))

/-- C3: the rate limiter `check_order_rate_limit` itself behaves as
specified — in a state with 50 anonymous orders inside the trailing hour it
raises for an anonymous caller and passes an authenticated one — but
`create_order` never invokes it: in that very state the next anonymous
`create_order` call still succeeds. -/
theorem create_order_skips_rate_limiter :
    check_order_rate_limit rlSt none = .error .rateLimitExceeded ∧
    check_order_rate_limit rlSt (some 7) = .ok true ∧
    (rlSt.orders.filter (fun o =>
      decide (rlSt.now - 3600 < o.createdAt) && o.userId.isNone)).length = 50 ∧
    (create_order rlSt none "g@h.io" "Guest" exAddr 20 (399/100) (2399/100)
        .card
        [{ productId := 1, productName := "Tea Cosy", productPrice := 20,
           deliveryCharge := 0, quantity := 1 }]).isOk = true := by
  refine ⟨by decide, by decide, by decide, ?_⟩
  norm_num [create_order, validateItems, insertItems, lookupProduct, rlSt,
    exSt, exCatalog, Except.isOk, Except.toBool]

/-- C10: an empty cart with claimed totals each within 0.01 of zero
succeeds: the persisted order has subtotal 0, delivery_total 0, total 0 and
status `pending`, and no line item carries the new order's id. -/
theorem create_order_empty_cart
    (st : DBState) (uid : Option UserId) (e f : String) (a : Address)
    (pSub pDel pTot : ℚ) (m : PaymentMethod)
    (hwf : st.WF = true)
    (hs : |pSub| ≤ 1/100) (hd : |pDel| ≤ 1/100) (ht : |pTot| ≤ 1/100) :
    ∃ st',
      create_order st uid e f a pSub pDel pTot m []
        = .ok (st', st.nextOrderId) ∧
      (∃ o, o ∈ st'.orders ∧ o.id = st.nextOrderId ∧ o.userId = uid ∧
        o.subtotal = 0 ∧ o.deliveryTotal = 0 ∧ o.total = 0 ∧
        o.status = .pending) ∧
      st'.orderItems.filter (fun r => r.orderId == st.nextOrderId) = [] := by
  have h1 : ¬ (1/100 < |(0:ℚ) - pSub|) := by
    rw [zero_sub, abs_neg]; exact not_lt.mpr hs
  have h2 : ¬ (1/100 < |(0:ℚ) - pDel|) := by
    rw [zero_sub, abs_neg]; exact not_lt.mpr hd
  have h3 : ¬ (1/100 < |(0:ℚ) + 0 - pTot|) := by
    rw [zero_add, zero_sub, abs_neg]; exact not_lt.mpr ht
  have heq : create_order st uid e f a pSub pDel pTot m []
      = .ok ({ st with
                orders := st.orders ++
                  [{ id := st.nextOrderId, userId := uid, email := e,
                     fullName := f, address := a, subtotal := 0,
                     deliveryTotal := 0, total := 0, status := .pending,
                     paymentMethod := m, createdAt := st.now }]
                orderItems := st.orderItems ++ []
                nextOrderId := st.nextOrderId + 1 }, st.nextOrderId) := by
    simp only [create_order, validateItems, insertItems]
    rw [if_neg h1, if_neg h2, if_neg h3, if_neg (lt_irrefl (0:ℚ)),
      if_neg (lt_irrefl (0:ℚ))]
    rw [if_neg (by norm_num : ¬ ((0:ℚ) + 0 < 0))]
    norm_num
  refine ⟨_, heq, ⟨Order.mk st.nextOrderId uid e f a 0 0 0 .pending m st.now,
    List.mem_append.mpr (Or.inr (by simp)), rfl, rfl, rfl, rfl, rfl, rfl⟩, ?_⟩
  have hwf2 : st.orderItems.all (fun i => i.orderId < st.nextOrderId) = true := by
    simp only [DBState.WF, Bool.and_eq_true] at hwf
    exact hwf.1.2
  simpa using filter_orderId_nil st.orderItems st.nextOrderId hwf2

/-- C10 witness: an empty cart with claimed totals 0.01 / 0 / −0.01 (each
within the tolerance of zero) creates the zero order. -/
theorem create_order_empty_cart_witness :
    ∃ st',
      create_order exSt none "e@f.gh" "Eve" exAddr (1/100) 0 (-(1/100)) .card []
        = .ok (st', exSt.nextOrderId) ∧
      (∃ o, o ∈ st'.orders ∧ o.id = exSt.nextOrderId ∧ o.userId = none ∧
        o.subtotal = 0 ∧ o.deliveryTotal = 0 ∧ o.total = 0 ∧
        o.status = .pending) ∧
      st'.orderItems.filter (fun r => r.orderId == exSt.nextOrderId) = [] :=
  create_order_empty_cart exSt none "e@f.gh" "Eve" exAddr (1/100) 0 (-(1/100))
    .card (by decide) (abs_le.mpr ⟨by norm_num, by norm_num⟩)
    (abs_le.mpr ⟨by norm_num, by norm_num⟩)
    (abs_le.mpr ⟨by norm_num, by norm_num⟩)

/-- C2: every successfully created order persists the catalog-calculated
subtotal, delivery total and total — never the client-claimed figures;
its total equals subtotal + delivery_total (exactly, hence within 0.01);
and subtotal / delivery_total equal the sums of `price*quantity` /
`delivery_charge*quantity` over the order's persisted line items. -/
theorem create_order_totals_invariant
    (st : DBState) (uid : Option UserId) (e f : String) (a : Address)
    (pSub pDel pTot : ℚ) (m : PaymentMethod) (items : List CartLine)
    (st' : DBState) (oid : OrderId)
    (hwf : st.WF = true)
    (h : create_order st uid e f a pSub pDel pTot m items = .ok (st', oid)) :
    ∃ o, o ∈ st'.orders ∧ o.id = oid ∧
      (∃ calcSub calcDel,
        validateItems st items 0 0 = .ok (calcSub, calcDel) ∧
        o.subtotal = calcSub ∧ o.deliveryTotal = calcDel ∧
        o.total = calcSub + calcDel) ∧
      o.total = o.subtotal + o.deliveryTotal ∧
      |o.total - (o.subtotal + o.deliveryTotal)| ≤ 1/100 ∧
      o.subtotal =
        itemsSubtotal (st'.orderItems.filter (fun r => r.orderId == oid)) ∧
      o.deliveryTotal =
        itemsDelivery (st'.orderItems.filter (fun r => r.orderId == oid)) := by
  obtain ⟨hoid, calcSub, calcDel, rows, hv, hi, hst⟩ :=
    create_order_ok_shape st uid e f a pSub pDel pTot m items st' oid h
  subst hoid
  subst hst
  obtain ⟨tail, htail, hfa⟩ := insertItems_ok st st.nextOrderId items [] rows hi
  have hrows : ∀ r ∈ rows, r.orderId = st.nextOrderId := by
    intro r hr
    exact forall₂_snapshot_orderId st st.nextOrderId items tail hfa r
      (by simpa [htail] using hr)
  have hfilter :
      (st.orderItems ++ rows).filter
        (fun r => r.orderId == st.nextOrderId) = rows :=
    filter_new_items st rows hwf hrows
  obtain ⟨hsub, hdel⟩ :=
    validate_insert_sums st st.nextOrderId items 0 0 calcSub calcDel [] rows
      hv hi
  refine ⟨Order.mk st.nextOrderId uid e f a calcSub calcDel
      (calcSub + calcDel) .pending m st.now,
    List.mem_append.mpr (Or.inr (by simp)), rfl,
    ⟨calcSub, calcDel, hv, rfl, rfl, rfl⟩, rfl, by norm_num, ?_, ?_⟩
  · show calcSub = itemsSubtotal ((st.orderItems ++ rows).filter
      (fun r => r.orderId == st.nextOrderId))
    rw [hfilter, hsub]
    simp [itemsSubtotal]
  · show calcDel = itemsDelivery ((st.orderItems ++ rows).filter
      (fun r => r.orderId == st.nextOrderId))
    rw [hfilter, hdel]
    simp [itemsDelivery]

/-- C2 witness: the end-to-end example — product at 15.50 with delivery
2.50, quantity 2, claimed 31.00 / 5.00 / 36.00 — creates an order
satisfying the totals invariant. -/
theorem create_order_totals_invariant_witness :
    ∃ o, o ∈ exCreated.1.orders ∧ o.id = exCreated.2 ∧
      (∃ calcSub calcDel,
        validateItems exSt exCart 0 0 = .ok (calcSub, calcDel) ∧
        o.subtotal = calcSub ∧ o.deliveryTotal = calcDel ∧
        o.total = calcSub + calcDel) ∧
      o.total = o.subtotal + o.deliveryTotal ∧
      |o.total - (o.subtotal + o.deliveryTotal)| ≤ 1/100 ∧
      o.subtotal = itemsSubtotal
        (exCreated.1.orderItems.filter (fun r => r.orderId == exCreated.2)) ∧
      o.deliveryTotal = itemsDelivery
        (exCreated.1.orderItems.filter (fun r => r.orderId == exCreated.2)) :=
  create_order_totals_invariant exSt none "a@b.co" "Ann Smith" exAddr 31 5 36
    .paypal exCart exCreated.1 exCreated.2 (by decide)
    (by norm_num [create_order, validateItems, insertItems, lookupProduct,
      exSt, exCatalog, exCreated, exCart, Except.toOption])

/-- C9 counterexample: in a successful order whose cart line claims the
display name "Fake Name" for catalog product 2 ("Alpaca Hat"), the
persisted line item stores the client-submitted name, not the catalog name
— while its price is the catalog's 15.50, not the client-claimed 1. -/
theorem order_item_name_counterexample :
    (create_order exSt none "a@b.co" "Ann Smith" exAddr 31 5 36 .paypal
      exCart).isOk = true ∧
    exCreated.1.orderItems.map OrderItem.productName = ["Fake Name"] ∧
    exCreated.1.orderItems.map OrderItem.productPrice = [31/2] ∧
    (lookupProduct exSt 2).map Product.name = some "Alpaca Hat" ∧
    ("Fake Name" : String) ≠ "Alpaca Hat" := by
  refine ⟨?_, ?_, ?_, by decide, by decide⟩ <;>
    norm_num [create_order, validateItems, insertItems, lookupProduct,
      exSt, exCatalog, exCreated, exCart, Except.isOk, Except.toBool,
      Except.toOption]

/-- C9 (amended): the persisted line items of a successful order are, in
cart order, exactly the snapshot rows: `product_price` and
`delivery_charge` are the catalog's values as re-read at insert time, while
`product_name` and `quantity` are taken from the client-submitted cart line
(the name is *not* re-read from the catalog). -/
theorem order_items_snapshot_prices
    (st : DBState) (uid : Option UserId) (e f : String) (a : Address)
    (pSub pDel pTot : ℚ) (m : PaymentMethod) (items : List CartLine)
    (st' : DBState) (oid : OrderId)
    (hwf : st.WF = true)
    (h : create_order st uid e f a pSub pDel pTot m items = .ok (st', oid)) :
    List.Forall₂ (fun l r => snapshotRow st oid l = some r) items
      (st'.orderItems.filter (fun r => r.orderId == oid)) := by
  obtain ⟨hoid, calcSub, calcDel, rows, hv, hi, hst⟩ :=
    create_order_ok_shape st uid e f a pSub pDel pTot m items st' oid h
  subst hoid
  subst hst
  obtain ⟨tail, htail, hfa⟩ := insertItems_ok st st.nextOrderId items [] rows hi
  have hrows : ∀ r ∈ rows, r.orderId = st.nextOrderId := by
    intro r hr
    exact forall₂_snapshot_orderId st st.nextOrderId items tail hfa r
      (by simpa [htail] using hr)
  show List.Forall₂ _ items ((st.orderItems ++ rows).filter
    (fun r => r.orderId == st.nextOrderId))
  rw [filter_new_items st rows hwf hrows]
  simpa [htail] using hfa

/-- C9 witness (for the amended claim): the example order's single line
item is the snapshot row of its cart line. -/
theorem order_items_snapshot_prices_witness :
    List.Forall₂ (fun l r => snapshotRow exSt exCreated.2 l = some r) exCart
      (exCreated.1.orderItems.filter (fun r => r.orderId == exCreated.2)) :=
  order_items_snapshot_prices exSt none "a@b.co" "Ann Smith" exAddr 31 5 36
    .paypal exCart exCreated.1 exCreated.2 (by decide)
    (by norm_num [create_order, validateItems, insertItems, lookupProduct,
      exSt, exCatalog, exCreated, exCart, Except.toOption])

/-- If the caller owns the order, the order is anonymous, or the caller is
an admin, the access check of `create_payment` does not fire. -/
theorem accessDenied_false (st : DBState) (uid orderUser : Option UserId)
    (hacc : orderUser = uid ∨ orderUser = none ∨ is_admin st uid = true) :
    paymentAccessDenied st uid orderUser = false := by
  rcases hacc with h | h | h
  · subst h
    cases orderUser with
    | none => rfl
    | some u => simp [paymentAccessDenied]
  · subst h
    cases uid <;> rfl
  · cases huid : uid with
    | none => rw [huid] at h; exact absurd h (by simp [is_admin])
    | some u =>
      rw [huid] at h
      cases orderUser with
      | none => rfl
      | some ou => simp [paymentAccessDenied, h]

/-- C4: given the order exists and the caller passes the access check, a
submitted amount off by more than 0.01 from the order's total fails with
the amount-mismatch error; and every successful `create_payment` stores the
*order's* total as the payment amount, exactly. -/
theorem create_payment_amount_validation
    (st : DBState) (uid : Option UserId) (p_order_id : OrderId)
    (method : PaymentMethod) (ref : String) (amount : ℚ)
    (status : PaymentStatus) (pd sd : Option Jsonb) (o : Order)
    (hfind : st.orders.find? (fun x => x.id == p_order_id) = some o) :
    ((o.userId = uid ∨ o.userId = none ∨ is_admin st uid = true) →
      1/100 < |amount - o.total| →
      create_payment st uid p_order_id method ref amount status pd sd
        = .error (.amountMismatch amount o.total)) ∧
    (∀ st' pid,
      create_payment st uid p_order_id method ref amount status pd sd
        = .ok (st', pid) →
      ∃ p, p ∈ st'.payments ∧ p.id = pid ∧ p.orderId = p_order_id ∧
        p.amount = o.total) := by
  constructor
  · intro hacc hmis
    have hdeny := accessDenied_false st uid o.userId hacc
    unfold create_payment
    rw [hfind]
    dsimp only
    rw [if_neg (by rw [hdeny]; exact fun hh => Bool.noConfusion hh),
      if_pos hmis]
  · intro st' pid hok
    unfold create_payment at hok
    rw [hfind] at hok
    dsimp only at hok
    split_ifs at hok with g1 g2 g3 g4
    simp only [Except.ok.injEq, Prod.mk.injEq] at hok
    obtain ⟨hst, hpid⟩ := hok
    subst hpid
    subst hst
    exact ⟨Payment.mk st.nextPaymentId p_order_id method ref status o.total
      "GBP" pd sd, List.mem_append.mpr (Or.inr (by simp)), rfl, rfl, rfl⟩

/-- C4 witness: a mismatched amount (999 against total 36) fails with the
amount-mismatch error, and the successful example payment stores exactly
the order's total. -/
theorem create_payment_amount_validation_witness :
    create_payment paySt (some 5) 10 .card "tok" 999 .pending none none
      = .error (.amountMismatch 999 ord10.total) ∧
    ∃ p, p ∈ exPaid.1.payments ∧ p.id = exPaid.2 ∧ p.orderId = 10 ∧
      p.amount = ord10.total :=
  ⟨(create_payment_amount_validation paySt (some 5) 10 .card "tok" 999
      .pending none none ord10 rfl).1 (Or.inr (Or.inl rfl))
      (by norm_num [ord10]),
   (create_payment_amount_validation paySt none 10 .card "tok_123" 36
      .pending none none ord10 rfl).2 exPaid.1 exPaid.2
      (by norm_num [create_payment, paymentAccessDenied, paySt, exSt, ord10,
        exPaid, Except.toOption, is_admin])⟩

/-- C5: given the order exists, the caller passes the access check, the
amount matches within 0.01 and the order total is non-negative: a
non-elevated caller requesting any status other than `pending` fails with
the admin-only error; the same caller requesting `pending` succeeds; an
elevated caller succeeds with every requested status. -/
theorem create_payment_status_restriction
    (st : DBState) (uid : Option UserId) (oid : OrderId)
    (method : PaymentMethod) (ref : String) (amount : ℚ)
    (pd sd : Option Jsonb) (o : Order)
    (hfind : st.orders.find? (fun x => x.id == oid) = some o)
    (hacc : o.userId = uid ∨ o.userId = none ∨ is_admin st uid = true)
    (hamt : |amount - o.total| ≤ 1/100)
    (htot : 0 ≤ o.total) :
    (∀ s, is_admin st uid = false → s ≠ PaymentStatus.pending →
      create_payment st uid oid method ref amount s pd sd
        = .error (.onlyAdminCanSetStatus s)) ∧
    (is_admin st uid = false →
      (create_payment st uid oid method ref amount .pending pd sd).isOk
        = true) ∧
    (is_admin st uid = true →
      ∀ s, (create_payment st uid oid method ref amount s pd sd).isOk
        = true) := by
  have hdeny := accessDenied_false st uid o.userId hacc
  have hnm : ¬ (1/100 < |amount - o.total|) := not_lt.mpr hamt
  have hnt : ¬ (o.total < 0) := not_lt.mpr htot
  refine ⟨?_, ?_, ?_⟩
  · intro s hna hs
    unfold create_payment
    rw [hfind]
    dsimp only
    rw [if_neg (by rw [hdeny]; exact fun hh => Bool.noConfusion hh),
      if_neg hnm]
    rw [if_pos (by simp [hna, bne_iff_ne, hs])]
  · intro hna
    unfold create_payment
    rw [hfind]
    dsimp only
    rw [if_neg (by rw [hdeny]; exact fun hh => Bool.noConfusion hh),
      if_neg hnm]
    rw [if_neg (by simp), if_neg hnt]
    rfl
  · intro hadm s
    unfold create_payment
    rw [hfind]
    dsimp only
    rw [if_neg (by rw [hdeny]; exact fun hh => Bool.noConfusion hh),
      if_neg hnm]
    rw [if_neg (by simp [hadm]), if_neg hnt]
    rfl

/-- C5 witness: on the existing order, an anonymous (non-elevated) caller
cannot create a `completed` payment but can create a `pending` one, and the
admin caller can create a `refunded` one directly. -/
theorem create_payment_status_restriction_witness :
    create_payment paySt none 10 .card "tok_123" 36 .completed none none
      = .error (.onlyAdminCanSetStatus .completed) ∧
    (create_payment paySt none 10 .card "tok_123" 36 .pending none
      none).isOk = true ∧
    (create_payment paySt (some 9) 10 .card "tok_123" 36 .refunded none
      none).isOk = true :=
  ⟨(create_payment_status_restriction paySt none 10 .card "tok_123" 36 none
      none ord10 rfl (Or.inr (Or.inl rfl)) (by norm_num [ord10])
      (by norm_num [ord10])).1 .completed rfl (fun hh =>
        PaymentStatus.noConfusion hh),
   (create_payment_status_restriction paySt none 10 .card "tok_123" 36 none
      none ord10 rfl (Or.inr (Or.inl rfl)) (by norm_num [ord10])
      (by norm_num [ord10])).2.1 rfl,
   (create_payment_status_restriction paySt (some 9) 10 .card "tok_123" 36
      none none ord10 rfl (Or.inr (Or.inl rfl)) (by norm_num [ord10])
      (by norm_num [ord10])).2.2 (by decide) .refunded⟩

/-- The validation loop walks any prefix of found-and-available lines and
continues on the remainder with updated accumulators. -/
theorem validateItems_append_valid (st : DBState) (pre : List CartLine)
    (hpre : ∀ l ∈ pre, ∃ p, lookupProduct st l.productId = some p ∧
      p.isAvailable = true) :
    ∀ (tl : List CartLine) (s d : ℚ), ∃ s' d',
      validateItems st (pre ++ tl) s d = validateItems st tl s' d' := by
  induction pre with
  | nil => intro tl s d; exact ⟨s, d, rfl⟩
  | cons l rest ih =>
    intro tl s d
    obtain ⟨p, hp, hav⟩ := hpre l (by simp)
    obtain ⟨s', d', heq⟩ :=
      ih (fun x hx => hpre x (by simp [hx])) tl
        (s + p.price * (l.quantity : ℚ))
        (d + (p.deliveryCharge.getD 0) * (l.quantity : ℚ))
    refine ⟨s', d', ?_⟩
    rw [List.cons_append, validateItems]
    simp only [hp]
    rw [if_neg (by simp [hav])]
    exact heq

/-- C6 counterexample: `mixedCart` contains product id 99, which is absent
from the catalog, yet `create_order` does not fail with
`ProductNotFound(99)` — it fails with `ProductUnavailable` for the earlier
cart line, so the claim's universally quantified error assignment is false
(though nothing is persisted either way). -/
theorem create_order_mixed_cart_counterexample :
    (mixedCart.map CartLine.productId).contains 99 = true ∧
    lookupProduct exSt 99 = none ∧
    create_order_run exSt none "a@b.co" "Ann Smith" exAddr 0 0 0 .card
      mixedCart = (exSt, .error (.productUnavailable "Wool Hat")) ∧
    create_order_run exSt none "a@b.co" "Ann Smith" exAddr 0 0 0 .card
      mixedCart ≠ (exSt, .error (.productNotFound 99)) := by
  have h3 : create_order_run exSt none "a@b.co" "Ann Smith" exAddr 0 0 0
      .card mixedCart = (exSt, .error (.productUnavailable "Wool Hat")) := by
    norm_num [create_order_run, create_order, validateItems, lookupProduct,
      exSt, exCatalog, mixedCart]
  refine ⟨by decide, by decide, h3, ?_⟩
  rw [h3]
  simp

/-- C6 (amended): the error of `create_order` is decided by the *first*
invalid cart line: when every line before it references a found, available
product, a line whose product id is absent fails with
`ProductNotFound(product_id)`, and a line whose product is unavailable
fails with `ProductUnavailable(product_name)`; in both cases the state is
unchanged — nothing is persisted. -/
theorem create_order_first_invalid_line
    (st : DBState) (uid : Option UserId) (e f : String) (a : Address)
    (pSub pDel pTot : ℚ) (m : PaymentMethod)
    (pre : List CartLine) (bad : CartLine) (rest : List CartLine)
    (hpre : ∀ l ∈ pre, ∃ p, lookupProduct st l.productId = some p ∧
      p.isAvailable = true) :
    (lookupProduct st bad.productId = none →
      create_order_run st uid e f a pSub pDel pTot m (pre ++ bad :: rest)
        = (st, .error (.productNotFound bad.productId))) ∧
    (∀ p, lookupProduct st bad.productId = some p → p.isAvailable = false →
      create_order_run st uid e f a pSub pDel pTot m (pre ++ bad :: rest)
        = (st, .error (.productUnavailable bad.productName))) := by
  obtain ⟨s', d', heq⟩ := validateItems_append_valid st pre hpre
    (bad :: rest) 0 0
  constructor
  · intro hnone
    have hv : validateItems st (pre ++ bad :: rest) 0 0
        = .error (.productNotFound bad.productId) := by
      rw [heq, validateItems]
      simp only [hnone]
    unfold create_order_run create_order
    rw [hv]
  · intro p hp hav
    have hv : validateItems st (pre ++ bad :: rest) 0 0
        = .error (.productUnavailable bad.productName) := by
      rw [heq, validateItems]
      simp only [hp]
      rw [if_pos hav]
    unfold create_order_run create_order
    rw [hv]

/-- C6 witness (for the amended claim): a cart whose only line references
the absent product 99 fails with `ProductNotFound(99)`, and a cart whose
only line references the unavailable product 3 fails with
`ProductUnavailable("Wool Hat")`; both leave the state unchanged. -/
theorem create_order_first_invalid_line_witness :
    create_order_run exSt none "a@b.co" "Ann Smith" exAddr 0 0 0 .card
      [{ productId := 99, productName := "Ghost", productPrice := 1,
         deliveryCharge := 0, quantity := 1 }]
      = (exSt, .error (.productNotFound 99)) ∧
    create_order_run exSt none "a@b.co" "Ann Smith" exAddr 0 0 0 .card
      [{ productId := 3, productName := "Wool Hat", productPrice := 5,
         deliveryCharge := 0, quantity := 1 }]
      = (exSt, .error (.productUnavailable "Wool Hat")) :=
  ⟨(create_order_first_invalid_line exSt none "a@b.co" "Ann Smith" exAddr
      0 0 0 .card []
      { productId := 99, productName := "Ghost", productPrice := 1,
        deliveryCharge := 0, quantity := 1 } [] (by simp)).1 (by decide),
   (create_order_first_invalid_line exSt none "a@b.co" "Ann Smith" exAddr
      0 0 0 .card []
      { productId := 3, productName := "Wool Hat", productPrice := 5,
        deliveryCharge := 0, quantity := 1 } [] (by simp)).2
      { name := "Wool Hat", price := 5, deliveryCharge := none,
        isAvailable := false }
      (by norm_num [lookupProduct, exSt, exCatalog]) rfl⟩

/-- The `UPDATE woolwitch.payments` of `update_payment_status` gives every
row matching the target id the requested status. -/
theorem map_applyPaymentUpdate_status (ps : List Payment) (pid : PaymentId)
    (s : PaymentStatus) (d : Option Jsonb) :
    ∀ q ∈ ps.map (applyPaymentUpdate pid s d), q.id = pid →
      q.status = s := by
  intro q hq hqid
  rcases List.mem_map.mp hq with ⟨q0, _, rfl⟩
  by_cases hid : (q0.id == pid) = true
  · simp [applyPaymentUpdate, hid]
  · have hfix : applyPaymentUpdate pid s d q0 = q0 := by
      simp [applyPaymentUpdate, hid]
    rw [hfix] at hqid
    exact absurd (beq_iff_eq.mpr hqid) hid

/-- C7: for an existing payment, an elevated caller's
`update_payment_status(payment_id, completed)` succeeds, sets that
payment's status to `completed`, and cascades the owning order's status to
`paid`. -/
theorem update_payment_completed_cascades
    (st : DBState) (uid : Option UserId) (pid : PaymentId)
    (d : Option Jsonb) (p : Payment)
    (hadmin : is_admin st uid = true)
    (hfind : st.payments.find? (fun q => q.id == pid) = some p) :
    ∃ st', update_payment_status st uid pid .completed d = .ok st' ∧
      (∀ q ∈ st'.payments, q.id = pid → q.status = .completed) ∧
      (∀ o ∈ st'.orders, o.id = p.orderId → o.status = .paid) := by
  unfold update_payment_status
  rw [hadmin, if_neg (fun hh => Bool.noConfusion hh)]
  dsimp only
  have hcc : (PaymentStatus.completed == PaymentStatus.completed) = true := rfl
  rw [if_pos hcc, hfind]
  refine ⟨_, rfl, map_applyPaymentUpdate_status _ _ _ _, ?_⟩
  intro o ho hoid
  rcases List.mem_map.mp ho with ⟨o0, _, rfl⟩
  by_cases hid : (some o0.id == (some p).map Payment.orderId) = true
  · have hid2 : o0.id = p.orderId := by simpa using hid
    simp [hid2]
  · have hfix : (if some o0.id == (some p).map Payment.orderId then
        { o0 with status := OrderStatus.paid } else o0) = o0 := by
      rw [if_neg (fun hh => hid hh)]
    rw [hfix] at hoid
    exact absurd (by simp [hoid]) hid

/-- C7 witness: completing the pending payment 20 (by the admin, user 9)
marks the payment completed and its order 10 paid. -/
theorem update_payment_completed_cascades_witness :
    ∃ st', update_payment_status c7St (some 9) 20 .completed none
        = .ok st' ∧
      (∀ q ∈ st'.payments, q.id = 20 → q.status = .completed) ∧
      (∀ o ∈ st'.orders, o.id = pay20.orderId → o.status = .paid) :=
  update_payment_completed_cascades c7St (some 9) 20 none pay20 (by decide)
    rfl

/-- C8 counterexample: payment 20 is in the terminal `refunded` state, yet
the admin's `update_payment_status(20, completed)` succeeds and moves it to
`completed` (cascading the order to `paid`) — the refunded state is not
terminal and the transition `refunded -> completed` is outside the claimed
state machine. -/
theorem payment_terminal_status_counterexample :
    c8St.payments.map Payment.status = [PaymentStatus.refunded] ∧
    (update_payment_status c8St (some 9) 20 .completed none).isOk = true ∧
    c8Res.payments.map Payment.status = [PaymentStatus.completed] ∧
    c8Res.orders.map Order.status = [OrderStatus.paid] := by
  decide

/-- C8 (amended): `update_payment_status` enforces only that the caller is
elevated and that the new status is one of the four known values (the
latter by typing); it never inspects the current status, so an elevated
caller can set any requested status from any current status — `failed` and
`refunded` are not terminal. -/
theorem update_payment_status_unrestricted
    (st : DBState) (uid : Option UserId) (pid : PaymentId)
    (s : PaymentStatus) (d : Option Jsonb)
    (hadmin : is_admin st uid = true) :
    ∃ st', update_payment_status st uid pid s d = .ok st' ∧
      ∀ q ∈ st'.payments, q.id = pid → q.status = s := by
  unfold update_payment_status
  rw [hadmin, if_neg (fun hh => Bool.noConfusion hh)]
  dsimp only
  by_cases hc : (s == PaymentStatus.completed) = true
  · rw [if_pos hc]
    exact ⟨_, rfl, map_applyPaymentUpdate_status _ _ _ _⟩
  · rw [if_neg hc]
    exact ⟨_, rfl, map_applyPaymentUpdate_status _ _ _ _⟩

/-- C8 witness (for the amended claim): the admin moves the refunded
payment 20 back to `pending` — a transition outside the claimed state
machine — and it takes effect. -/
theorem update_payment_status_unrestricted_witness :
    ∃ st', update_payment_status c8St (some 9) 20 .pending none
        = .ok st' ∧
      ∀ q ∈ st'.payments, q.id = 20 → q.status = .pending :=
  update_payment_status_unrestricted c8St (some 9) 20 .pending none
    (by decide)

end Woolwitch
